import Mathlib

/-
Verification of the EXTREMA SOLUSDT swing-capture backend against its
specification.  Shallow embedding of the decision-pipeline services
(risk_manager.py, enhanced_confluence.py, signal_engine.py,
microstructure.py, veto_system.py, tp_sl_manager.py, regime_detector.py)
over exact rational arithmetic.  Python floats are modelled as rationals,
Python strings as Lean strings, dict-shaped results as structures.
-/

namespace Extrema

/-- Python abs() on a rational: negate when negative. -/
def absQ (x : ℚ) : ℚ := if x < 0 then -x else x

/-! ## Risk manager (src/backend/app/services/risk_manager.py)

RiskManager constructor parameters, with the constructor defaults from
RiskManager.__init__ captured by defaultRiskConfig. -/

structure RiskConfig where
  base_position_size : ℚ
  max_leverage : ℚ
  min_liq_gap_multiplier : ℚ
  account_balance : ℚ
  max_risk_per_trade_pct : ℚ

/-- The constructor defaults of RiskManager. -/
def defaultRiskConfig : RiskConfig :=
  { base_position_size := 1000
    max_leverage := 5
    min_liq_gap_multiplier := 3
    account_balance := 10000
    max_risk_per_trade_pct := 2 }

/-- RiskManager.calculate_liquidation_price.  The maintenance margin rate is
passed explicitly; the Python default is 0.005 = 1/200. -/
def calculateLiquidationPrice (entry_price : ℚ) (side : String) (leverage : ℚ)
    (maintenance_margin_rate : ℚ) : ℚ :=
  if side = "long" then
    entry_price * (1 - 1 / leverage + maintenance_margin_rate)
  else
    entry_price * (1 + 1 / leverage - maintenance_margin_rate)

/-- Result dict of RiskManager.calculate_liq_gap. -/
structure LiqGapResult where
  liq_price : ℚ
  liq_distance : ℚ
  stop_distance : ℚ
  liq_gap_multiplier : ℚ
  liq_gap_ok : Bool
  min_required_multiplier : ℚ

/-- RiskManager.calculate_liq_gap. -/
def calculateLiqGap (cfg : RiskConfig) (entry_price stop_loss : ℚ)
    (side : String) (leverage : ℚ) : LiqGapResult :=
  let liq_price := calculateLiquidationPrice entry_price side leverage (1/200)
  let stop_distance :=
    if side = "long" then absQ (entry_price - stop_loss)
    else absQ (stop_loss - entry_price)
  let liq_distance :=
    if side = "long" then absQ (liq_price - entry_price)
    else absQ (entry_price - liq_price)
  let liq_gap_multiplier :=
    if stop_distance > 0 then liq_distance / stop_distance else 0
  { liq_price := liq_price
    liq_distance := liq_distance
    stop_distance := stop_distance
    liq_gap_multiplier := liq_gap_multiplier
    liq_gap_ok := decide (liq_gap_multiplier ≥ cfg.min_liq_gap_multiplier)
    min_required_multiplier := cfg.min_liq_gap_multiplier }

/-- Result dict of RiskManager.calculate_position_size. -/
structure PositionSizing where
  tier_multiplier : ℚ
  position_size_usd : ℚ
  quantity : ℚ
  leverage : ℚ
  margin_required : ℚ
  risk_distance_pct : ℚ
  risk_usd : ℚ
  max_risk_usd : ℚ
  risk_ok : Bool

/-- RiskManager.calculate_position_size.  Note that the Python code computes
risk_usd from the pre-clamp size and does not recompute it after reducing
position_size_usd to meet the risk limit. -/
def calculatePositionSize (cfg : RiskConfig) (tier : String)
    (entry_price stop_loss leverage : ℚ) : PositionSizing :=
  let tier_multiplier : ℚ := if tier = "A" then 1 else if tier = "B" then 1/2 else 1/2
  let risk_distance := absQ (entry_price - stop_loss)
  let risk_distance_pct := risk_distance / entry_price * 100
  let size0 := cfg.base_position_size * tier_multiplier
  let risk_usd := size0 * (risk_distance_pct / 100)
  let max_risk_usd := cfg.account_balance * (cfg.max_risk_per_trade_pct / 100)
  let position_size_usd :=
    if risk_usd > max_risk_usd then max_risk_usd / (risk_distance_pct / 100) else size0
  { tier_multiplier := tier_multiplier
    position_size_usd := position_size_usd
    quantity := position_size_usd / entry_price
    leverage := leverage
    margin_required := position_size_usd / leverage
    risk_distance_pct := risk_distance_pct
    risk_usd := risk_usd
    max_risk_usd := max_risk_usd
    risk_ok := decide (risk_usd ≤ max_risk_usd) }

/-- Result dict of RiskManager.check_entry_risk.  The free-text reason and
warning messages are abstracted to fixed tags; only their presence matters
to the entry decision (len(reasons) == 0). -/
structure EntryRiskResult where
  entry_allowed : Bool
  liq_gap : LiqGapResult
  position_sizing : PositionSizing
  warnings : List String
  reasons : List String

/-- RiskManager.check_entry_risk. -/
def checkEntryRisk (cfg : RiskConfig) (entry_price stop_loss : ℚ)
    (side tier : String) (leverage : ℚ) : EntryRiskResult :=
  let liq_gap := calculateLiqGap cfg entry_price stop_loss side leverage
  let reasons1 : List String :=
    if liq_gap.liq_gap_ok then [] else ["liq_gap_insufficient"]
  let position_sizing := calculatePositionSize cfg tier entry_price stop_loss leverage
  let warnings : List String :=
    if position_sizing.risk_ok then [] else ["risk_adjusted"]
  let reasons2 := reasons1 ++
    (if position_sizing.margin_required > cfg.account_balance * (8/10) then
      ["insufficient_margin"] else [])
  { entry_allowed := liq_gap.liq_gap_ok && decide (reasons2.length = 0)
    liq_gap := liq_gap
    position_sizing := position_sizing
    warnings := warnings
    reasons := reasons2 }

/-! ## Enhanced confluence engine
(src/backend/app/services/enhanced_confluence.py)

The engine consumes dict-shaped results of the upstream gate checks; the
fields it reads (with their .get defaults) become structure fields. -/

/-- The fields of check_context_gates() read by compute_context_score. -/
structure ContextGateInputs where
  ema_15m_ratio : ℚ
  ema_1h_ratio : ℚ
  osc_15m_ok : Bool
  osc_1h_ok : Bool
  pivot_structure_ok : Bool

/-- The fields of check_macro_alignment() read by the engine. -/
structure MacroResult where
  score : ℚ
  tier_clearance : String

/-- A leg score: the total (out of 50) and the percentage (total/50*100). -/
structure ScoreResult where
  total : ℚ
  percentage : ℚ

/-- EnhancedConfluenceEngine.compute_context_score with the context weights
from __init__ (ema 0.20, oscillator 0.10, pivot 0.10, macro 0.10). -/
def computeContextScore (g : ContextGateInputs) (m : MacroResult) : ScoreResult :=
  let ema_avg := (g.ema_15m_ratio + g.ema_1h_ratio) / 2
  let s_ema := ema_avg * (20/100) * 100
  let osc_score := ((if g.osc_15m_ok then (1 : ℚ) else 0) +
    (if g.osc_1h_ok then (1 : ℚ) else 0)) / 2
  let s_osc := osc_score * (10/100) * 100
  let s_pivot := (if g.pivot_structure_ok then (1 : ℚ) else 0) * (10/100) * 100
  let s_macro := (m.score / 100) * (10/100) * 100
  let total := s_ema + s_osc + s_pivot + s_macro
  { total := total, percentage := total / 50 * 100 }

/-- Fields of the 5m trigger validation result read by the engine. -/
structure TriggerInputs where
  trigger_ok : Bool
  volume_ok : Bool

/-- Fields of check_1m_impulse() read by the engine. -/
structure ImpulseInputs where
  rsi_hold_ok : Bool
  bos_ok : Bool
  volume_ok : Bool

/-- Fields of check_tape_filters() read by the engine. -/
structure TapeInputs where
  cvd_ok : Bool
  obi_ok : Bool
  vwap_ok : Bool

/-- Fields of run_comprehensive_veto_checks() read by the engine. -/
structure VetoSummary where
  any_veto : Bool
  veto_count : Nat

/-- EnhancedConfluenceEngine.compute_micro_score with the micro weights from
__init__ (trigger 0.20, impulse 0.15, tape 0.10, veto hygiene 0.05). -/
def computeMicroScore (t : TriggerInputs) (im : ImpulseInputs) (ta : TapeInputs)
    (v : VetoSummary) : ScoreResult :=
  let trigger_score := ((if t.trigger_ok then (1 : ℚ) else 0) +
    (if t.volume_ok then (1 : ℚ) else 0)) / 2
  let s_trigger := trigger_score * (20/100) * 100
  let impulse_score := ((if im.rsi_hold_ok then (1 : ℚ) else 0) +
    (if im.bos_ok then (1 : ℚ) else 0) +
    (if im.volume_ok then (1 : ℚ) else 0)) / 3
  let s_impulse := impulse_score * (15/100) * 100
  let tape_score := ((if ta.cvd_ok then (1 : ℚ) else 0) +
    (if ta.obi_ok then (1 : ℚ) else 0) +
    (if ta.vwap_ok then (1 : ℚ) else 0)) / 3
  let s_tape := tape_score * (10/100) * 100
  let veto_score : ℚ := if v.any_veto then 0 else 1
  let s_veto := veto_score * (5/100) * 100
  let total := s_trigger + s_impulse + s_tape + s_veto
  { total := total, percentage := total / 50 * 100 }

/-- Result dict of EnhancedConfluenceEngine.apply_bottleneck_logic. -/
structure BottleneckResult where
  final_score : ℚ
  final_percentage : ℚ
  context_score : ℚ
  micro_score : ℚ
  bottleneck : String

/-- EnhancedConfluenceEngine.apply_bottleneck_logic: final = min of the two
leg totals, bottleneck labelled by which leg is strictly smaller. -/
def applyBottleneckLogic (context_score micro_score : ScoreResult) : BottleneckResult :=
  let context_total := context_score.total
  let micro_total := micro_score.total
  let final_score := min context_total micro_total
  let bn : String :=
    if context_total < micro_total then "context"
    else if micro_total < context_total then "micro"
    else "balanced"
  { final_score := final_score
    final_percentage := final_score / 50 * 100
    context_score := context_total
    micro_score := micro_total
    bottleneck := bn }

/-- Result dict of EnhancedConfluenceEngine.compute_full_confluence
(final score, tier, both legs, bottleneck and the details fields). -/
structure FullConfluenceResult where
  final_score : ℚ
  tier : String
  context : ScoreResult
  micro : ScoreResult
  bottleneck : BottleneckResult
  context_percentage : ℚ
  micro_percentage : ℚ
  macro_tier_clearance : String
  veto_triggered : Bool

/-- EnhancedConfluenceEngine.compute_full_confluence.  The tier is decided
from the leg percentages, the macro tier clearance, and the veto flag by the
if/elif/else chain at the end of the Python function. -/
def computeFullConfluence (g : ContextGateInputs) (m : MacroResult)
    (t : TriggerInputs) (im : ImpulseInputs) (ta : TapeInputs)
    (v : VetoSummary) : FullConfluenceResult :=
  let context_score := computeContextScore g m
  let micro_score := computeMicroScore t im ta v
  let bottleneck := applyBottleneckLogic context_score micro_score
  let context_pct := context_score.percentage
  let micro_pct := micro_score.percentage
  let macro_tier := m.tier_clearance
  let tier : String :=
    if macro_tier = "A" ∧ context_pct ≥ 75 ∧ micro_pct ≥ 80 ∧ v.any_veto = false then "A"
    else if context_pct ≥ 60 ∧ micro_pct ≥ 70 ∧ v.any_veto = false then "B"
    else "SKIP"
  { final_score := bottleneck.final_score
    tier := tier
    context := context_score
    micro := micro_score
    bottleneck := bottleneck
    context_percentage := context_pct
    micro_percentage := micro_pct
    macro_tier_clearance := macro_tier
    veto_triggered := v.any_veto }

/-- [C1] The bottleneck rule: the final score equals the minimum of the
context and micro leg totals, and the reported bottleneck is context when
context is strictly smaller, micro when micro is strictly smaller, and
balanced exactly when the legs are equal; the final score reported by
compute_full_confluence is that same minimum of its two leg totals. -/
theorem c1_bottleneck_rule (c m : ScoreResult) (g : ContextGateInputs)
    (mr : MacroResult) (t : TriggerInputs) (im : ImpulseInputs)
    (ta : TapeInputs) (v : VetoSummary) :
    (computeFullConfluence g mr t im ta v).final_score =
      min (computeContextScore g mr).total (computeMicroScore t im ta v).total ∧
    (applyBottleneckLogic c m).final_score = min c.total m.total ∧
    ((applyBottleneckLogic c m).bottleneck = "context" ↔ c.total < m.total) ∧
    ((applyBottleneckLogic c m).bottleneck = "micro" ↔ m.total < c.total) ∧
    ((applyBottleneckLogic c m).bottleneck = "balanced" ↔ c.total = m.total) := by
  have hcm : ("context" : String) ≠ "micro" := by decide
  have hcb : ("context" : String) ≠ "balanced" := by decide
  have hmb : ("micro" : String) ≠ "balanced" := by decide
  refine ⟨rfl, rfl, ?_, ?_, ?_⟩ <;>
  · dsimp only [applyBottleneckLogic]
    rcases lt_trichotomy c.total m.total with h | h | h
    · simp [h, lt_asymm h, ne_of_lt h, hcm, hcm.symm, hcb, hcb.symm, hmb, hmb.symm]
    · simp [h, lt_irrefl, hcm, hcm.symm, hcb, hcb.symm, hmb, hmb.symm]
    · simp [h, lt_asymm h, ne_of_gt h, hcm, hcm.symm, hcb, hcb.symm, hmb, hmb.symm]

/-- [C2] The tier rule of compute_full_confluence: tier A exactly when macro
tier-clearance is A, context percentage at least 75, micro percentage at
least 80 and no veto; tier B exactly when the A conditions fail but context
is at least 60, micro at least 70 and no veto; SKIP in every other case. -/
theorem c2_tier_rule (g : ContextGateInputs) (m : MacroResult) (t : TriggerInputs)
    (im : ImpulseInputs) (ta : TapeInputs) (v : VetoSummary) :
    ((computeFullConfluence g m t im ta v).tier = "A" ↔
      (m.tier_clearance = "A" ∧ (computeContextScore g m).percentage ≥ 75 ∧
        (computeMicroScore t im ta v).percentage ≥ 80 ∧ v.any_veto = false)) ∧
    ((computeFullConfluence g m t im ta v).tier = "B" ↔
      (¬(m.tier_clearance = "A" ∧ (computeContextScore g m).percentage ≥ 75 ∧
          (computeMicroScore t im ta v).percentage ≥ 80 ∧ v.any_veto = false) ∧
        ((computeContextScore g m).percentage ≥ 60 ∧
          (computeMicroScore t im ta v).percentage ≥ 70 ∧ v.any_veto = false))) ∧
    ((computeFullConfluence g m t im ta v).tier = "SKIP" ↔
      (¬(m.tier_clearance = "A" ∧ (computeContextScore g m).percentage ≥ 75 ∧
          (computeMicroScore t im ta v).percentage ≥ 80 ∧ v.any_veto = false) ∧
        ¬((computeContextScore g m).percentage ≥ 60 ∧
          (computeMicroScore t im ta v).percentage ≥ 70 ∧ v.any_veto = false))) := by
  have hab : ("A" : String) ≠ "B" := by decide
  have has : ("A" : String) ≠ "SKIP" := by decide
  have hbs : ("B" : String) ≠ "SKIP" := by decide
  refine ⟨?_, ?_, ?_⟩ <;>
  · dsimp only [computeFullConfluence]
    split_ifs with hA hB <;>
      simp_all [hab, hab.symm, has, has.symm, hbs, hbs.symm]

/-- [C10] For an entry-risk check whose stop loss equals the entry price the
computation takes the zero-stop-distance branch (no division occurs): the
liq-gap multiplier is reported as 0, liq_gap_ok is false, and the entry is
rejected. -/
theorem c10_zero_stop_distance_rejected (entry : ℚ) (side tier : String) (lev : ℚ) :
    (calculateLiqGap defaultRiskConfig entry entry side lev).liq_gap_multiplier = 0 ∧
    (calculateLiqGap defaultRiskConfig entry entry side lev).liq_gap_ok = false ∧
    (checkEntryRisk defaultRiskConfig entry entry side tier lev).entry_allowed = false := by
  have hsd : (if side = "long" then absQ (entry - entry) else absQ (entry - entry)) = 0 := by
    simp [absQ]
  have hmul : (calculateLiqGap defaultRiskConfig entry entry side lev).liq_gap_multiplier = 0 := by
    simp only [calculateLiqGap, hsd]
    norm_num
  have hok : (calculateLiqGap defaultRiskConfig entry entry side lev).liq_gap_ok = false := by
    simp only [calculateLiqGap, hsd]
    norm_num [defaultRiskConfig]
  refine ⟨hmul, hok, ?_⟩
  simp only [checkEntryRisk, hok, Bool.false_and]

/-- The liq-gap ok flag holds exactly when the multiplier meets the
configured minimum. -/
theorem liqGapOk_iff (cfg : RiskConfig) (entry stop : ℚ) (side : String) (lev : ℚ) :
    (calculateLiqGap cfg entry stop side lev).liq_gap_ok = true ↔
      (calculateLiqGap cfg entry stop side lev).liq_gap_multiplier ≥
        cfg.min_liq_gap_multiplier := by
  dsimp only [calculateLiqGap]
  exact decide_eq_true_iff

/-- Size times fractional stop distance never exceeds the per-trade risk
budget, for any configuration with a nonnegative budget. -/
theorem positionSize_risk_le (cfg : RiskConfig) (tier : String) (entry stop lev : ℚ)
    (hmax : 0 ≤ cfg.account_balance * (cfg.max_risk_per_trade_pct / 100)) :
    (calculatePositionSize cfg tier entry stop lev).position_size_usd *
      ((calculatePositionSize cfg tier entry stop lev).risk_distance_pct / 100) ≤
    cfg.account_balance * (cfg.max_risk_per_trade_pct / 100) := by
  dsimp only [calculatePositionSize]
  set tm := (if tier = "A" then (1 : ℚ) else if tier = "B" then 1/2 else 1/2) with htm
  set q := absQ (entry - stop) / entry * 100 / 100 with hqdef
  split_ifs with hgt
  · have hq0 : q ≠ 0 := by
      intro h0
      rw [h0, mul_zero] at hgt
      exact absurd hmax (not_le.mpr hgt)
    rw [div_mul_cancel₀ _ hq0]
  · exact not_lt.mp hgt

/-- [C3-counterexample] A concrete entry-risk check (long, entry 100,
stop 95, tier A, leverage 1/10) in which the liq-gap multiplier meets the
3x minimum and yet the entry is rejected (the margin check trips), refuting
the claimed equivalence. -/
theorem c3_liq_gap_iff_refuted :
    (calculateLiqGap defaultRiskConfig 100 95 "long" (1/10)).liq_gap_multiplier ≥ 3 ∧
    (checkEntryRisk defaultRiskConfig 100 95 "long" "A" (1/10)).entry_allowed = false := by
  constructor
  · norm_num [calculateLiqGap, calculateLiquidationPrice, defaultRiskConfig, absQ]
  · norm_num [checkEntryRisk, calculateLiqGap, calculateLiquidationPrice,
      calculatePositionSize, defaultRiskConfig, absQ]

/-- [C3-amended] Entry is allowed iff the liq-gap multiplier meets the
3x minimum AND the required margin does not exceed 80 percent of the account
balance; and for every leverage of at least 10, a long from entry 100 with a
5 percent stop (stop 95) is rejected. -/
theorem c3_entry_risk_guard (entry stop : ℚ) (side tier : String) (lev : ℚ) :
    ((checkEntryRisk defaultRiskConfig entry stop side tier lev).entry_allowed = true ↔
      ((calculateLiqGap defaultRiskConfig entry stop side lev).liq_gap_multiplier ≥ 3 ∧
        (calculatePositionSize defaultRiskConfig tier entry stop lev).margin_required ≤
          defaultRiskConfig.account_balance * (8/10))) ∧
    (lev ≥ 10 →
      (checkEntryRisk defaultRiskConfig 100 95 "long" tier lev).entry_allowed = false) := by
  constructor
  · have hok : (calculateLiqGap defaultRiskConfig entry stop side lev).liq_gap_ok = true ↔
        (calculateLiqGap defaultRiskConfig entry stop side lev).liq_gap_multiplier ≥ 3 := by
      simpa [defaultRiskConfig] using liqGapOk_iff defaultRiskConfig entry stop side lev
    dsimp only [checkEntryRisk]
    by_cases h1 : (calculateLiqGap defaultRiskConfig entry stop side lev).liq_gap_ok = true
    · by_cases h2 : (calculatePositionSize defaultRiskConfig tier entry stop lev).margin_required >
          defaultRiskConfig.account_balance * (8/10)
      · simp only [h1, if_pos h2, if_true]
        simp [not_le.mpr h2]
      · simp only [h1, if_neg h2, if_true]
        simp [hok.mp h1, not_lt.mp h2]
    · have h1f : (calculateLiqGap defaultRiskConfig entry stop side lev).liq_gap_ok = false := by
        revert h1
        cases (calculateLiqGap defaultRiskConfig entry stop side lev).liq_gap_ok <;> simp
      simp only [h1f]
      simp
      intro hge
      exact absurd (hok.mpr hge) (by simp [h1f])
  · intro hlev
    have hlev0 : (0 : ℚ) < lev := by linarith
    have hmult : (calculateLiqGap defaultRiskConfig 100 95 "long" lev).liq_gap_multiplier < 3 := by
      have h100 : 100 / lev ≤ 10 := by
        rw [div_le_iff₀ hlev0]
        linarith
      have h100p : 0 < 100 / lev := by positivity
      dsimp only [calculateLiqGap, calculateLiquidationPrice, defaultRiskConfig]
      rw [if_pos rfl, if_pos rfl, if_pos rfl]
      have hstop : absQ (100 - 95) = 5 := by norm_num [absQ]
      rw [hstop]
      rw [if_pos (by norm_num : (5 : ℚ) > 0)]
      rw [div_lt_iff₀ (by norm_num : (0 : ℚ) < 5)]
      have hdist : (100 : ℚ) * (1 - 1 / lev + 1/200) - 100 = 1/2 - 100 / lev := by
        field_simp
        ring
      rw [hdist]
      unfold absQ
      split_ifs <;> linarith
    have hokf : (calculateLiqGap defaultRiskConfig 100 95 "long" lev).liq_gap_ok = false := by
      have := liqGapOk_iff defaultRiskConfig 100 95 "long" lev
      rcases hb : (calculateLiqGap defaultRiskConfig 100 95 "long" lev).liq_gap_ok with _ | _
      · rfl
      · rw [hb] at this
        have h3 := this.mp rfl
        norm_num [defaultRiskConfig] at h3
        exact absurd h3 (not_le.mpr hmult)
    dsimp only [checkEntryRisk]
    rw [hokf]
    simp

/-- [C3-witness] The amended guard at a concrete input: leverage 10 on the
5 percent-stop long from entry 100 is rejected. -/
theorem c3_entry_risk_guard_witness :
    (10 : ℚ) ≥ 10 ∧
    (checkEntryRisk defaultRiskConfig 100 95 "long" "A" 10).entry_allowed = false :=
  ⟨by norm_num, (c3_entry_risk_guard 100 95 "long" "A" 10).2 (by norm_num)⟩

/-- [C7] The returned position size satisfies the per-trade risk cap:
size times (stop-distance percent / 100) is at most
max_risk_per_trade_pct / 100 times the account balance; and concretely the
risk in USD of a full A-tier position with leverage 3, entry 100, stop 95 on
the default 10000 balance with a 2 percent cap does not exceed 200. -/
theorem c7_position_risk_cap (tier : String) (entry stop lev : ℚ) (h : entry ≠ stop) :
    (calculatePositionSize defaultRiskConfig tier entry stop lev).position_size_usd *
        ((calculatePositionSize defaultRiskConfig tier entry stop lev).risk_distance_pct / 100) ≤
      defaultRiskConfig.max_risk_per_trade_pct / 100 * defaultRiskConfig.account_balance ∧
    (calculatePositionSize defaultRiskConfig "A" 100 95 3).risk_usd ≤ 200 := by
  constructor
  · have hle := positionSize_risk_le defaultRiskConfig tier entry stop lev
      (by norm_num [defaultRiskConfig])
    calc (calculatePositionSize defaultRiskConfig tier entry stop lev).position_size_usd *
          ((calculatePositionSize defaultRiskConfig tier entry stop lev).risk_distance_pct / 100)
        ≤ defaultRiskConfig.account_balance * (defaultRiskConfig.max_risk_per_trade_pct / 100) := hle
      _ = defaultRiskConfig.max_risk_per_trade_pct / 100 * defaultRiskConfig.account_balance := by
          ring
  · norm_num [calculatePositionSize, defaultRiskConfig, absQ]

/-- [C7-witness] The risk cap applied at the concrete spec input:
tier A, entry 100, stop 95, leverage 3. -/
theorem c7_position_risk_cap_witness :
    (100 : ℚ) ≠ 95 ∧
    (calculatePositionSize defaultRiskConfig "A" 100 95 3).position_size_usd *
        ((calculatePositionSize defaultRiskConfig "A" 100 95 3).risk_distance_pct / 100) ≤
      defaultRiskConfig.max_risk_per_trade_pct / 100 * defaultRiskConfig.account_balance :=
  ⟨by norm_num, (c7_position_risk_cap "A" 100 95 3 (by norm_num)).1⟩

/-! ## Microstructure gate (src/backend/app/services/microstructure.py)
and snapshot-based veto checks (src/backend/app/services/veto_system.py) -/

/-- The MicroSnapshot dataclass of src/backend/app/utils/micro_store.py. -/
structure MicroSnapshot where
  ts : ℚ
  best_bid : ℚ
  best_ask : ℚ
  spread_bps : ℚ
  bid_agg : ℚ
  ask_agg : ℚ
  ladder_imbalance : ℚ
  cvd : ℚ
  cvd_slope : ℚ
  trade_v : ℚ
  ok : Bool

/-- The veto dict built by micro_ok: each key is present (some value) exactly
when the corresponding gate failed. -/
structure MicroVeto where
  no_snapshot : Bool
  spread : Option ℚ
  depth : Option (ℚ × ℚ)
  imbalance : Option ℚ
  cvd_slope : Option ℚ

/-- The initially empty veto dict. -/
def emptyMicroVeto : MicroVeto :=
  { no_snapshot := false, spread := none, depth := none,
    imbalance := none, cvd_slope := none }

/-- micro_ok from microstructure.py: returns (ok, veto dict, confluence
bonus).  A missing snapshot immediately returns not-ok with the no_snapshot
veto and zero bonus. -/
def microOk (side : String) (snap : Option MicroSnapshot)
    (spread_bps_max depth_min imb_threshold cvd_slope_min : ℚ) :
    Bool × MicroVeto × ℚ :=
  match snap with
  | none => (false, { emptyMicroVeto with no_snapshot := true }, 0)
  | some s =>
    let spread_fail := decide (s.spread_bps ≥ spread_bps_max)
    let depth_fail := decide (depth_min > 0) && decide (min s.bid_agg s.ask_agg ≤ depth_min)
    let imb_ok :=
      if side = "long" then decide (s.ladder_imbalance > imb_threshold)
      else decide (s.ladder_imbalance < -imb_threshold)
    let slope_ok :=
      if side = "long" then decide (s.cvd_slope > cvd_slope_min)
      else decide (s.cvd_slope < -cvd_slope_min)
    let cvd_fail := decide (cvd_slope_min > 0) && !slope_ok
    let ok := !spread_fail && !depth_fail && imb_ok && !cvd_fail
    let veto : MicroVeto :=
      { no_snapshot := false
        spread := if spread_fail then some s.spread_bps else none
        depth := if depth_fail then some (s.bid_agg, s.ask_agg) else none
        imbalance := if imb_ok then none else some s.ladder_imbalance
        cvd_slope := if cvd_fail then some s.cvd_slope else none }
    let bonus := if ok then min (1/10) (absQ s.ladder_imbalance) else 0
    (ok, veto, bonus)

/-- Result dict of check_spread_veto; the np.nan initial values are modelled
as none, the reason message as a fixed tag. -/
structure SpreadVetoResult where
  veto : Bool
  spread_bps : Option ℚ
  spread_pct : Option ℚ
  reason : Option String

/-- check_spread_veto from veto_system.py.  A missing or not-ok snapshot
returns the initial result unchanged (veto false). -/
def checkSpreadVeto (micro_snap : Option MicroSnapshot) (max_spread_pct : ℚ) :
    SpreadVetoResult :=
  match micro_snap with
  | none => { veto := false, spread_bps := none, spread_pct := none, reason := none }
  | some s =>
    if s.ok = false then
      { veto := false, spread_bps := none, spread_pct := none, reason := none }
    else
      let spread_pct := s.spread_bps / 100
      if spread_pct > max_spread_pct then
        { veto := true, spread_bps := some s.spread_bps,
          spread_pct := some spread_pct, reason := some "spread_too_wide" }
      else
        { veto := false, spread_bps := some s.spread_bps,
          spread_pct := some spread_pct, reason := none }

/-- Result dict of check_depth_veto, nan values modelled as none. -/
structure DepthVetoResult where
  veto : Bool
  bid_depth : Option ℚ
  ask_depth : Option ℚ
  total_depth : Option ℚ
  depth_ratio : Option ℚ
  reason : Option String

/-- check_depth_veto from veto_system.py.  A missing or not-ok snapshot
returns the initial result (veto false).  For a present, ok snapshot the try
block reads micro_snap.bid_depth, an attribute the MicroSnapshot dataclass
does not define (its fields are bid_agg and ask_agg); the AttributeError is
caught by the handler, which also leaves the initial result unchanged, so
every branch returns veto false. -/
def checkDepthVeto (micro_snap : Option MicroSnapshot) (min_depth_ratio : ℚ)
    (baseline_depth : Option ℚ) : DepthVetoResult :=
  match micro_snap with
  | none =>
    { veto := false, bid_depth := none, ask_depth := none,
      total_depth := none, depth_ratio := none, reason := none }
  | some s =>
    if s.ok = false then
      { veto := false, bid_depth := none, ask_depth := none,
        total_depth := none, depth_ratio := none, reason := none }
    else
      { veto := false, bid_depth := none, ask_depth := none,
        total_depth := none, depth_ratio := none, reason := none }

/-- [C8-counterexample] With a missing snapshot both snapshot-based veto
checks report veto = false (no veto), refuting the claim that each of them
reports a veto. -/
theorem c8_spread_depth_fail_open :
    (checkSpreadVeto none (1/10)).veto = false ∧
    (checkDepthVeto none (1/2) none).veto = false :=
  ⟨rfl, rfl⟩

/-- [C8-amended] A missing microstructure snapshot makes the microstructure
gate fail closed: micro_ok reports not-ok with the no_snapshot veto and a
zero confluence bonus, so missing data grants no gate approval and no bonus
credit; the snapshot-based spread and depth veto checks, however, return
veto = false (they pass) when the snapshot is missing. -/
theorem c8_missing_snapshot_behaviour (side : String)
    (smax dmin ithr cmin mxs rat : ℚ) (base : Option ℚ) :
    (microOk side none smax dmin ithr cmin).1 = false ∧
    (microOk side none smax dmin ithr cmin).2.1.no_snapshot = true ∧
    (microOk side none smax dmin ithr cmin).2.2 = 0 ∧
    (checkSpreadVeto none mxs).veto = false ∧
    (checkDepthVeto none rat base).veto = false :=
  ⟨rfl, rfl, rfl, rfl, rfl⟩

/-! ## Regime parameters (src/backend/app/services/regime_detector.py)
and TP/SL manager (src/backend/app/services/tp_sl_manager.py) -/

/-- One parameter bundle of RegimeDetector.get_regime_params.  The
early_trail key is present only in the wide bundle; it is modelled as a
Bool that is false for the other regimes. -/
structure RegimeParams where
  need_two_closes : Bool
  trigger_atr_mult : ℚ
  tp1_r : ℚ
  tp2_r : ℚ
  tp3_r : ℚ
  vol_spike_mult : ℚ
  early_trail : Bool

/-- RegimeDetector.get_regime_params: the fixed per-regime bundles, with
params.get(regime, params of normal) falling back to the normal bundle. -/
def getRegimeParams (regime : String) : RegimeParams :=
  if regime = "squeeze" then
    { need_two_closes := true, trigger_atr_mult := 1/2, tp1_r := 1,
      tp2_r := 5/2, tp3_r := 4, vol_spike_mult := 3/2, early_trail := false }
  else if regime = "wide" then
    { need_two_closes := false, trigger_atr_mult := 35/100, tp1_r := 1,
      tp2_r := 2, tp3_r := 3, vol_spike_mult := 3/2, early_trail := true }
  else
    { need_two_closes := false, trigger_atr_mult := 1/2, tp1_r := 1,
      tp2_r := 2, tp3_r := 3, vol_spike_mult := 3/2, early_trail := false }

/-- TPSLManager constructor parameters with their defaults. -/
structure TPSLConfig where
  tp1_r : ℚ
  tp2_r : ℚ
  tp3_r : ℚ
  tp1_pct : ℚ
  tp2_pct : ℚ
  tp3_pct : ℚ
  trail_atr_mult : ℚ
  max_hold_hours_normal : ℚ
  max_hold_hours_squeeze : ℚ

/-- The constructor defaults of TPSLManager. -/
def defaultTPSLConfig : TPSLConfig :=
  { tp1_r := 1, tp2_r := 2, tp3_r := 3, tp1_pct := 1/2, tp2_pct := 3/10,
    tp3_pct := 1/5, trail_atr_mult := 1/2,
    max_hold_hours_normal := 24, max_hold_hours_squeeze := 12 }

/-- Result dict of TPSLManager.calculate_tp_sl_levels. -/
structure TPSLLevels where
  entry : ℚ
  stop_loss : ℚ
  risk : ℚ
  tp1 : ℚ
  tp2 : ℚ
  tp3 : ℚ
  tp1_r : ℚ
  tp2_r : ℚ
  tp3_r : ℚ
  tp1_pct : ℚ
  tp2_pct : ℚ
  tp3_pct : ℚ
  regime : String
  atr : ℚ
  trail_distance : ℚ

/-- TPSLManager.calculate_tp_sl_levels: R is the entry-stop distance,
TP2/TP3 R-multiples are raised to 2.5/4.0 in the squeeze regime, and the
TP prices sit at entry plus (long) or minus (short) the R-multiple times R. -/
def calculateTpSlLevels (cfg : TPSLConfig) (entry_price stop_loss : ℚ)
    (side regime : String) (atr : ℚ) : TPSLLevels :=
  let risk := absQ (entry_price - stop_loss)
  let tp2_r := if regime = "squeeze" then (5/2 : ℚ) else cfg.tp2_r
  let tp3_r := if regime = "squeeze" then (4 : ℚ) else cfg.tp3_r
  let tp1 := if side = "long" then entry_price + cfg.tp1_r * risk
    else entry_price - cfg.tp1_r * risk
  let tp2 := if side = "long" then entry_price + tp2_r * risk
    else entry_price - tp2_r * risk
  let tp3 := if side = "long" then entry_price + tp3_r * risk
    else entry_price - tp3_r * risk
  { entry := entry_price, stop_loss := stop_loss, risk := risk,
    tp1 := tp1, tp2 := tp2, tp3 := tp3,
    tp1_r := cfg.tp1_r, tp2_r := tp2_r, tp3_r := tp3_r,
    tp1_pct := cfg.tp1_pct, tp2_pct := cfg.tp2_pct, tp3_pct := cfg.tp3_pct,
    regime := regime, atr := atr,
    trail_distance := cfg.trail_atr_mult * atr }

/-- [C6] For every regime and side the TP ladder of the default-configured
manager is strictly increasing in R-multiples with reduction percentages
summing to 1; the squeeze regime uses TP2 = 2.5R and TP3 = 4R while normal
and wide use 2R and 3R; and the TP prices are entry plus (long) or minus
(short) the R-multiple times the entry-stop distance. -/
theorem c6_tp_ladder (e s a : ℚ) (side regime : String) :
    ((calculateTpSlLevels defaultTPSLConfig e s side regime a).tp1_r <
        (calculateTpSlLevels defaultTPSLConfig e s side regime a).tp2_r ∧
      (calculateTpSlLevels defaultTPSLConfig e s side regime a).tp2_r <
        (calculateTpSlLevels defaultTPSLConfig e s side regime a).tp3_r ∧
      (calculateTpSlLevels defaultTPSLConfig e s side regime a).tp1_pct +
          (calculateTpSlLevels defaultTPSLConfig e s side regime a).tp2_pct +
          (calculateTpSlLevels defaultTPSLConfig e s side regime a).tp3_pct = 1) ∧
    ((calculateTpSlLevels defaultTPSLConfig e s side "squeeze" a).tp2_r = 5/2 ∧
      (calculateTpSlLevels defaultTPSLConfig e s side "squeeze" a).tp3_r = 4 ∧
      (calculateTpSlLevels defaultTPSLConfig e s side "normal" a).tp2_r = 2 ∧
      (calculateTpSlLevels defaultTPSLConfig e s side "normal" a).tp3_r = 3 ∧
      (calculateTpSlLevels defaultTPSLConfig e s side "wide" a).tp2_r = 2 ∧
      (calculateTpSlLevels defaultTPSLConfig e s side "wide" a).tp3_r = 3) ∧
    ((calculateTpSlLevels defaultTPSLConfig e s "long" regime a).tp1 =
        e + (calculateTpSlLevels defaultTPSLConfig e s "long" regime a).tp1_r * absQ (e - s) ∧
      (calculateTpSlLevels defaultTPSLConfig e s "long" regime a).tp2 =
        e + (calculateTpSlLevels defaultTPSLConfig e s "long" regime a).tp2_r * absQ (e - s) ∧
      (calculateTpSlLevels defaultTPSLConfig e s "long" regime a).tp3 =
        e + (calculateTpSlLevels defaultTPSLConfig e s "long" regime a).tp3_r * absQ (e - s)) ∧
    ((calculateTpSlLevels defaultTPSLConfig e s "short" regime a).tp1 =
        e - (calculateTpSlLevels defaultTPSLConfig e s "short" regime a).tp1_r * absQ (e - s) ∧
      (calculateTpSlLevels defaultTPSLConfig e s "short" regime a).tp2 =
        e - (calculateTpSlLevels defaultTPSLConfig e s "short" regime a).tp2_r * absQ (e - s) ∧
      (calculateTpSlLevels defaultTPSLConfig e s "short" regime a).tp3 =
        e - (calculateTpSlLevels defaultTPSLConfig e s "short" regime a).tp3_r * absQ (e - s)) ∧
    ((getRegimeParams "squeeze").tp1_r < (getRegimeParams "squeeze").tp2_r ∧
      (getRegimeParams "squeeze").tp2_r < (getRegimeParams "squeeze").tp3_r ∧
      (getRegimeParams "normal").tp1_r < (getRegimeParams "normal").tp2_r ∧
      (getRegimeParams "normal").tp2_r < (getRegimeParams "normal").tp3_r ∧
      (getRegimeParams "wide").tp1_r < (getRegimeParams "wide").tp2_r ∧
      (getRegimeParams "wide").tp2_r < (getRegimeParams "wide").tp3_r) := by
  have hns : ("normal" : String) ≠ "squeeze" := by decide
  have hws : ("wide" : String) ≠ "squeeze" := by decide
  refine ⟨⟨?_, ?_, ?_⟩, ⟨?_, ?_, ?_, ?_, ?_, ?_⟩, ⟨?_, ?_, ?_⟩, ⟨?_, ?_, ?_⟩, ?_⟩ <;>
    dsimp only [calculateTpSlLevels, getRegimeParams, defaultTPSLConfig] <;>
    try split_ifs
  all_goals simp_all [hns, hws]
  all_goals norm_num

/-! ## Trailing stop (src/backend/app/services/tp_sl_manager.py) -/

/-- The trailing_stop sub-dict of a position. -/
structure TrailingStop where
  status : String
  current_stop : ℚ
  highest_price : Option ℚ
  lowest_price : Option ℚ

/-- The fields of a TPSLManager position dict read and written by
update_trailing_stop (the TP2/TP3 flags, quantities and timestamps play no
role there and are omitted). -/
structure Position where
  side : String
  entry_price : ℚ
  tp1_hit : Bool
  trail_distance : ℚ
  trailing : TrailingStop

/-- TPSLManager.create_position, restricted to the modelled fields: the
trailing stop starts inactive at the initial stop loss, with the favorable
extreme seeded at the entry price for the owned side. -/
def createPosition (cfg : TPSLConfig) (entry_price stop_loss : ℚ)
    (side regime : String) (atr : ℚ) : Position :=
  let levels := calculateTpSlLevels cfg entry_price stop_loss side regime atr
  { side := side
    entry_price := entry_price
    tp1_hit := false
    trail_distance := levels.trail_distance
    trailing :=
      { status := "inactive"
        current_stop := stop_loss
        highest_price := if side = "long" then some entry_price else none
        lowest_price := if side = "short" then some entry_price else none } }

/-- The favorable-extreme update of the long branch of update_trailing_stop:
replace a missing or lower recorded high with the current price. -/
def newHighest (hp : Option ℚ) (current_price : ℚ) : ℚ :=
  match hp with
  | none => current_price
  | some h => if current_price > h then current_price else h

/-- The favorable-extreme update of the short branch of
update_trailing_stop: replace a missing or higher recorded low with the
current price. -/
def newLowest (lp : Option ℚ) (current_price : ℚ) : ℚ :=
  match lp with
  | none => current_price
  | some l => if current_price < l then current_price else l

/-- The result dict of TPSLManager.update_trailing_stop. -/
structure TrailingUpdate where
  updated : Bool
  new_stop : ℚ
  status : String

/-- TPSLManager.update_trailing_stop as a state transition on the position:
no action before TP1; the first active call jumps the stop to breakeven;
afterwards the long branch tracks the highest price and raises the stop to
highest minus trail_distance only when that is strictly higher, the short
branch mirrors this downwards. -/
def updateTrailingStop (p : Position) (current_price : ℚ) :
    Position × TrailingUpdate :=
  let t := p.trailing
  if p.tp1_hit = false then
    (p, { updated := false, new_stop := t.current_stop, status := t.status })
  else if t.status = "inactive" then
    let t2 := { t with status := "breakeven", current_stop := p.entry_price }
    ({ p with trailing := t2 },
      { updated := true, new_stop := p.entry_price, status := "breakeven" })
  else if p.side = "long" then
    let hp := newHighest t.highest_price current_price
    let new_stop := hp - p.trail_distance
    if new_stop > t.current_stop then
      let t2 := { t with
        highest_price := some hp
        current_stop := new_stop
        status := "active" }
      ({ p with trailing := t2 },
        { updated := true, new_stop := new_stop, status := "active" })
    else
      let t2 := { t with highest_price := some hp }
      ({ p with trailing := t2 },
        { updated := false, new_stop := t.current_stop, status := t.status })
  else
    let lp := newLowest t.lowest_price current_price
    let new_stop := lp + p.trail_distance
    if new_stop < t.current_stop then
      let t2 := { t with
        lowest_price := some lp
        current_stop := new_stop
        status := "active" }
      ({ p with trailing := t2 },
        { updated := true, new_stop := new_stop, status := "active" })
    else
      let t2 := { t with lowest_price := some lp }
      ({ p with trailing := t2 },
        { updated := false, new_stop := t.current_stop, status := t.status })

/-- [C5] Once TP1 has been hit: the first trailing update jumps the stop to
breakeven (the entry price); later long updates either keep the stop or set
it to the tracked highest price minus the trail distance; and the stop is
monotone, never decreasing for a long whose stop starts at or below entry
(mirror for a short whose stop starts at or above entry). -/
theorem c5_trailing_stop_monotone (p : Position) (price : ℚ)
    (h1 : p.tp1_hit = true) :
    (p.trailing.status = "inactive" →
      (updateTrailingStop p price).1.trailing.current_stop = p.entry_price) ∧
    (p.side = "long" → p.trailing.status ≠ "inactive" →
      ((updateTrailingStop p price).1.trailing.current_stop = p.trailing.current_stop ∨
        (updateTrailingStop p price).1.trailing.current_stop =
          newHighest p.trailing.highest_price price - p.trail_distance)) ∧
    (p.side = "long" →
      (p.trailing.status = "inactive" → p.trailing.current_stop ≤ p.entry_price) →
      p.trailing.current_stop ≤ (updateTrailingStop p price).1.trailing.current_stop) ∧
    (p.side ≠ "long" →
      (p.trailing.status = "inactive" → p.entry_price ≤ p.trailing.current_stop) →
      (updateTrailingStop p price).1.trailing.current_stop ≤ p.trailing.current_stop) := by
  dsimp only [updateTrailingStop]
  rw [h1]
  simp only [Bool.true_eq_false, if_false]
  by_cases hin : p.trailing.status = "inactive"
  · rw [if_pos hin]
    refine ⟨fun _ => rfl, fun _ hni => absurd hin hni, ?_, ?_⟩
    · intro _ hle
      exact hle hin
    · intro _ hge
      exact hge hin
  · rw [if_neg hin]
    by_cases hl : p.side = "long"
    · rw [if_pos hl]
      refine ⟨fun hc => absurd hc hin, ?_, ?_, fun hnl => absurd hl hnl⟩
      · intro _ _
        split_ifs with hgt
        · exact Or.inr rfl
        · exact Or.inl rfl
      · intro _ _
        split_ifs with hgt
        · exact le_of_lt hgt
        · exact le_refl _
    · rw [if_neg hl]
      refine ⟨fun hc => absurd hc hin, fun hc => absurd hc hl, fun hc => absurd hc hl, ?_⟩
      intro _ _
      split_ifs with hlt
      · exact le_of_lt hlt
      · exact le_refl _

/-- A concrete long position after TP1 used to exercise the trailing-stop
theorem: breakeven status, stop at entry 100, recorded high 110, trail
distance 2. -/
def c5SamplePosition : Position :=
  { side := "long"
    entry_price := 100
    tp1_hit := true
    trail_distance := 2
    trailing :=
      { status := "breakeven"
        current_stop := 100
        highest_price := some 110
        lowest_price := none } }

/-- [C5-witness] The monotonicity clause applied to the concrete position at
price 115. -/
theorem c5_trailing_stop_monotone_witness :
    c5SamplePosition.tp1_hit = true ∧
    c5SamplePosition.trailing.current_stop ≤
      (updateTrailingStop c5SamplePosition 115).1.trailing.current_stop :=
  ⟨rfl, (c5_trailing_stop_monotone c5SamplePosition 115 rfl).2.2.1 rfl
    (by intro hin; exact absurd hin (by decide))⟩

/-! ## Micro-confirmation (src/backend/app/services/signal_engine.py)

A DataFrame row becomes a Bar; the rolling 50-bar volume median follows
pandas semantics (NaN, modelled as none, until 50 observations exist; the
code substitutes 0 for NaN).  The global snapshot read by get_snapshot() on
each loop iteration is modelled as a function from the bar index scanned to
the snapshot current at that moment. -/

/-- One 5m candle row with the columns micro_confirm reads. -/
structure Bar where
  high : ℚ
  low : ℚ
  close : ℚ
  volume : ℚ
  atr14 : ℚ

/-- Placeholder row for out-of-range access (never reached on the index
ranges micro_confirm scans). -/
def defaultBar : Bar :=
  { high := 0, low := 0, close := 0, volume := 0, atr14 := 0 }

/-- Insert into a sorted list of rationals. -/
def insertSorted (x : ℚ) : List ℚ → List ℚ
  | [] => [x]
  | y :: ys => if x ≤ y then x :: y :: ys else y :: insertSorted x ys

/-- Insertion sort of rationals (used by the rolling median). -/
def sortQ : List ℚ → List ℚ
  | [] => []
  | x :: xs => insertSorted x (sortQ xs)

/-- Statistical median of a list: middle element for odd length, mean of
the two middle elements for even length (pandas convention). -/
def medianOf (xs : List ℚ) : ℚ :=
  let s := sortQ xs
  let n := s.length
  if n = 0 then 0
  else if n % 2 = 1 then s.getD (n / 2) 0
  else (s.getD (n / 2 - 1) 0 + s.getD (n / 2) 0) / 2

/-- pandas Series.rolling(w).median() read at index j: none (NaN) before w
observations exist, otherwise the median of the trailing w values. -/
def rollingMedian (w : Nat) (xs : List ℚ) (j : Nat) : Option ℚ :=
  if j + 1 < w then none
  else some (medianOf ((xs.drop (j + 1 - w)).take w))

/-- The candidate extremum used as breakout base: the candidate bar high
for longs, its low for shorts. -/
def candidateBase (df : List Bar) (i : Nat) (side : String) : ℚ :=
  if side = "long" then (df.getD i defaultBar).high else (df.getD i defaultBar).low

/-- The ATR5 proxy of micro_confirm: ATR14 at the candidate bar scaled by
5/14. -/
def candidateAtr5 (df : List Bar) (i : Nat) : ℚ :=
  (df.getD i defaultBar).atr14 * (5/14)

/-- One loop iteration of micro_confirm as a predicate on the scanned bar
index j: breakout beyond base by breakout_atr_mult x ATR5, volume at least
vol_mult x the 50-bar rolling median (0 when the median is NaN), and - when
the micro gate is enabled - approval by micro_ok on the snapshot current at
that iteration.  The loop returns the first index satisfying this. -/
def confirmPass (df : List Bar) (side : String) (base atr5 : ℚ)
    (breakout_atr_mult vol_mult : ℚ) (enable_micro_gate : Bool)
    (spread_bps_max imb_threshold : ℚ)
    (snapAt : Nat → Option MicroSnapshot) (j : Nat) : Bool :=
  let bar := df.getD j defaultBar
  let brk :=
    if side = "long" then decide (bar.close > base + breakout_atr_mult * atr5)
    else decide (bar.close < base - breakout_atr_mult * atr5)
  let med_vol_val := (rollingMedian 50 (df.map Bar.volume) j).getD 0
  let vol_ok := decide (bar.volume ≥ vol_mult * med_vol_val)
  brk && vol_ok &&
    (!enable_micro_gate || (microOk side (snapAt j) spread_bps_max 0 imb_threshold 0).1)

/-- First index in [lo, lo + n) satisfying pass, scanning upward (the
for-loop over range(lo, hi + 1) of micro_confirm with n = hi + 1 - lo). -/
def scanFirst (pass : Nat → Bool) : Nat → Nat → Option Nat
  | _, 0 => none
  | lo, n + 1 => if pass lo then some lo else scanFirst pass (lo + 1) n

/-- micro_confirm from signal_engine.py, returning the confirmation index
(the always-empty veto dict of the Python return value is omitted).  The
scan runs over j in range(i + 1, min(i + 1 + confirm_window, len(df) - 1)
+ 1). -/
def microConfirm (df : List Bar) (i : Nat) (side : String) (confirm_window : Nat)
    (breakout_atr_mult vol_mult : ℚ) (enable_micro_gate : Bool)
    (spread_bps_max imb_threshold : ℚ)
    (snapAt : Nat → Option MicroSnapshot) : Option Nat :=
  let base := candidateBase df i side
  let atr5 := candidateAtr5 df i
  let lo := i + 1
  let hi := min (i + 1 + confirm_window) (df.length - 1)
  scanFirst
    (confirmPass df side base atr5 breakout_atr_mult vol_mult enable_micro_gate
      spread_bps_max imb_threshold snapAt)
    lo (hi + 1 - lo)

/-- A successful scan lands inside the scanned range. -/
theorem scanFirst_some_bounds (pass : Nat → Bool) (j : Nat) :
    ∀ n lo, scanFirst pass lo n = some j → lo ≤ j ∧ j < lo + n := by
  intro n
  induction n with
  | zero =>
    intro lo h
    simp [scanFirst] at h
  | succ n ih =>
    intro lo h
    simp only [scanFirst] at h
    by_cases hp : pass lo
    · rw [if_pos hp] at h
      injection h with h
      omega
    · rw [if_neg hp] at h
      have := ih (lo + 1) h
      omega

/-- The scan returns the least passing index of the scanned range. -/
theorem scanFirst_eq_some (pass : Nat → Bool) (j : Nat) (hpass : pass j = true) :
    ∀ n lo, lo ≤ j → j < lo + n →
      (∀ k, lo ≤ k → k < j → pass k = false) →
      scanFirst pass lo n = some j := by
  intro n
  induction n with
  | zero =>
    intro lo h1 h2 _
    omega
  | succ n ih =>
    intro lo h1 h2 h3
    simp only [scanFirst]
    by_cases hlo : lo = j
    · subst hlo
      simp [hpass]
    · have hlt : lo < j := lt_of_le_of_ne h1 hlo
      simp only [h3 lo (le_refl _) hlt, Bool.false_eq_true, if_false]
      exact ih (lo + 1) hlt (by omega) (fun k hk1 hk2 => h3 k (by omega) hk2)

/-- [C4-amended] Every confirmation index returned by micro_confirm lies
strictly after the candidate bar and at most confirm_window + 1 bars after
it (the loop bound min(i + 1 + confirm_window, len - 1) is inclusive, so
the scan covers confirm_window + 1 bars). -/
theorem c4_confirm_index_bounds (df : List Bar) (i : Nat) (side : String)
    (cw : Nat) (bm vm : ℚ) (en : Bool) (sm it : ℚ)
    (snapAt : Nat → Option MicroSnapshot) (j : Nat)
    (h : microConfirm df i side cw bm vm en sm it snapAt = some j) :
    i < j ∧ j ≤ i + cw + 1 := by
  dsimp only [microConfirm] at h
  have hb := scanFirst_some_bounds _ j _ _ h
  have hm1 : min (i + 1 + cw) (df.length - 1) ≤ i + 1 + cw := Nat.min_le_left _ _
  omega

/-- The 5m candle window of the C4 boundary run: candidate bar 0 with high
100 and ATR14 1.4 (ATR5 proxy 0.5), no breakout at bar 1, breakout close
101 at bar 2, one trailing filler bar. -/
def c4Bars : List Bar :=
  [ { high := 100, low := 99, close := 100, volume := 10, atr14 := 14/10 },
    { high := 1001/10, low := 995/10, close := 100, volume := 10, atr14 := 14/10 },
    { high := 1012/10, low := 1002/10, close := 101, volume := 10, atr14 := 14/10 },
    { high := 1015/10, low := 1005/10, close := 1011/10, volume := 10, atr14 := 14/10 } ]

/-- A healthy snapshot: spread 5 bps below the 10 bps cap, ladder imbalance
0.2 above the 0.15 long threshold. -/
def healthySnap : MicroSnapshot :=
  { ts := 0, best_bid := 100, best_ask := 1001/10, spread_bps := 5,
    bid_agg := 60, ask_agg := 40, ladder_imbalance := 2/10, cvd := 0,
    cvd_slope := 0, trade_v := 0, ok := true }

/-- Bar 1 of the C4 run does not pass: its close 100 is below the breakout
threshold 100.25. -/
theorem c4_pass1_eval :
    confirmPass c4Bars "long" (candidateBase c4Bars 0 "long") (candidateAtr5 c4Bars 0)
      (1/2) (3/2) true 10 (15/100) (fun _ => some healthySnap) 1 = false := by
  norm_num [confirmPass, candidateBase, candidateAtr5, c4Bars, defaultBar,
    rollingMedian, microOk, healthySnap, List.getD]

/-- Bar 2 of the C4 run passes breakout, volume and the gate. -/
theorem c4_pass2_eval :
    confirmPass c4Bars "long" (candidateBase c4Bars 0 "long") (candidateAtr5 c4Bars 0)
      (1/2) (3/2) true 10 (15/100) (fun _ => some healthySnap) 2 = true := by
  norm_num [confirmPass, candidateBase, candidateAtr5, c4Bars, defaultBar,
    rollingMedian, microOk, healthySnap, List.getD]

/-- The C4 boundary run confirms at bar 2 with confirm_window 1. -/
theorem c4_run_eval :
    microConfirm c4Bars 0 "long" 1 (1/2) (3/2) true 10 (15/100)
      (fun _ => some healthySnap) = some 2 := by
  have step : ∀ q : Nat → Bool,
      scanFirst q 1 2 = if q 1 then some 1 else if q 2 then some 2 else none :=
    fun q => rfl
  show scanFirst
    (confirmPass c4Bars "long" (candidateBase c4Bars 0 "long") (candidateAtr5 c4Bars 0)
      (1/2) (3/2) true 10 (15/100) (fun _ => some healthySnap)) 1 2 = some 2
  rw [step, c4_pass1_eval, c4_pass2_eval]
  simp

/-- [C4-counterexample] With confirm_window = 1 the scan of micro_confirm
still reaches bar i + 2 and confirms there: the confirmation index exceeds
candidate index + confirm_window, refuting the claimed window bound. -/
theorem c4_window_bound_refuted :
    microConfirm c4Bars 0 "long" 1 (1/2) (3/2) true 10 (15/100)
      (fun _ => some healthySnap) = some 2 ∧
    ¬((2 : Nat) - 0 ≤ 1) :=
  ⟨c4_run_eval, by norm_num⟩

/-- [C4-witness] The amended bound applied to the concrete boundary run. -/
theorem c4_confirm_index_bounds_witness :
    microConfirm c4Bars 0 "long" 1 (1/2) (3/2) true 10 (15/100)
      (fun _ => some healthySnap) = some 2 ∧
    0 < 2 ∧ 2 ≤ 0 + 1 + 1 := by
  have hb := c4_confirm_index_bounds c4Bars 0 "long" 1 (1/2) (3/2) true 10 (15/100)
    (fun _ => some healthySnap) 2 c4_run_eval
  exact ⟨c4_run_eval, hb.1, hb.2⟩

/-- [C9] If every bar of the window before j2 fails the full per-bar check
(in the scenario of interest some bar j1 before j2 passes breakout and
volume - the gate-disabled check - but fails the gate-enabled check, i.e.
only the microstructure gate vetoes it), and at j2 breakout, volume and the
microstructure gate all pass, then micro_confirm keeps scanning past the
vetoed bar and confirms at j2. -/
theorem c9_scan_continues_after_gate_veto (df : List Bar) (i : Nat) (side : String)
    (cw : Nat) (bm vm sm it : ℚ) (snapAt : Nat → Option MicroSnapshot) (j1 j2 : Nat)
    (h1 : i + 1 ≤ j1) (h2 : j1 < j2)
    (h3 : j2 ≤ min (i + 1 + cw) (df.length - 1))
    (hbv : confirmPass df side (candidateBase df i side) (candidateAtr5 df i)
      bm vm false sm it snapAt j1 = true)
    (hgate : confirmPass df side (candidateBase df i side) (candidateAtr5 df i)
      bm vm true sm it snapAt j1 = false)
    (hfirst : ∀ k, i + 1 ≤ k → k < j2 →
      confirmPass df side (candidateBase df i side) (candidateAtr5 df i)
        bm vm true sm it snapAt k = false)
    (hj2 : confirmPass df side (candidateBase df i side) (candidateAtr5 df i)
      bm vm true sm it snapAt j2 = true) :
    microConfirm df i side cw bm vm true sm it snapAt = some j2 := by
  dsimp only [microConfirm]
  exact scanFirst_eq_some _ j2 hj2 _ (i + 1) (by omega) (by omega) hfirst

/-- A snapshot whose ladder imbalance 0 fails the 0.15 long threshold, so
the microstructure gate vetoes while spread and health are fine. -/
def imbalancedSnap : MicroSnapshot :=
  { ts := 0, best_bid := 100, best_ask := 1001/10, spread_bps := 5,
    bid_agg := 50, ask_agg := 50, ladder_imbalance := 0, cvd := 0,
    cvd_slope := 0, trade_v := 0, ok := true }

/-- The 5m window of the C9 run: breakout closes at bars 1 and 2. -/
def c9Bars : List Bar :=
  [ { high := 100, low := 99, close := 100, volume := 10, atr14 := 14/10 },
    { high := 1012/10, low := 1002/10, close := 101, volume := 10, atr14 := 14/10 },
    { high := 1013/10, low := 1003/10, close := 101, volume := 10, atr14 := 14/10 } ]

/-- Snapshot history of the C9 run: unhealthy imbalance while bar 1 is
scanned, healthy by the time bar 2 is scanned. -/
def c9SnapAt : Nat → Option MicroSnapshot :=
  fun j => if j = 2 then some healthySnap else some imbalancedSnap

/-- Bar 1 of the C9 run passes breakout and volume (the gate-disabled
check). -/
theorem c9_pass1_nogate_eval :
    confirmPass c9Bars "long" (candidateBase c9Bars 0 "long") (candidateAtr5 c9Bars 0)
      (1/2) (3/2) false 10 (15/100) c9SnapAt 1 = true := by
  norm_num [confirmPass, candidateBase, candidateAtr5, c9Bars, defaultBar,
    rollingMedian, List.getD]

/-- Bar 1 of the C9 run fails the gate-enabled check: the snapshot current
at bar 1 has imbalance 0, vetoed by the microstructure gate. -/
theorem c9_pass1_gate_eval :
    confirmPass c9Bars "long" (candidateBase c9Bars 0 "long") (candidateAtr5 c9Bars 0)
      (1/2) (3/2) true 10 (15/100) c9SnapAt 1 = false := by
  norm_num [confirmPass, candidateBase, candidateAtr5, c9Bars, defaultBar,
    rollingMedian, microOk, c9SnapAt, imbalancedSnap, List.getD]

/-- Bar 2 of the C9 run passes breakout, volume and the gate. -/
theorem c9_pass2_eval :
    confirmPass c9Bars "long" (candidateBase c9Bars 0 "long") (candidateAtr5 c9Bars 0)
      (1/2) (3/2) true 10 (15/100) c9SnapAt 2 = true := by
  norm_num [confirmPass, candidateBase, candidateAtr5, c9Bars, defaultBar,
    rollingMedian, microOk, c9SnapAt, healthySnap, List.getD]

/-- [C9-witness] The concrete run: bar 1 passes breakout and volume but is
vetoed by the gate; the scan continues and confirms at bar 2. -/
theorem c9_scan_continues_witness :
    microConfirm c9Bars 0 "long" 6 (1/2) (3/2) true 10 (15/100) c9SnapAt = some 2 :=
  c9_scan_continues_after_gate_veto c9Bars 0 "long" 6 (1/2) (3/2) 10 (15/100)
    c9SnapAt 1 2 (by norm_num) (by norm_num)
    (by norm_num [c9Bars])
    c9_pass1_nogate_eval c9_pass1_gate_eval
    (fun k hk1 hk2 => by
      have hk : k = 1 := by omega
      subst hk
      exact c9_pass1_gate_eval)
    c9_pass2_eval

end Extrema
